import Mathlib

/-!
Verification of the CIMC configuration broker (`cimc_conf.py`).

This file gives a shallow embedding of the `CIMCBroker` class: its remote
state is modelled by explicit structures, every remote interaction (read or
write) is recorded in an effect trace, and each public operation is a pure
Lean function from the remote state and the call configuration to a `Run`
record carrying the effect trace, the broker's `changed` flag and the
result (`Except` models a Python exception escaping the call).

Conventions of the embedding:
- Python `None` and string values read from the SDK are `Option String`;
  Python truthiness of such a value is `pyTruthy`.
- Python 2 integer division (`timeout / self._interval`) is `Int.fdiv`
  (floor division).
- Each `raise Exception(...)` site in the source is one constructor of
  `CimcErr`, carrying the data interpolated into the message.
-/

namespace CimcConf

/-- One constructor per `raise` site of `cimc_conf.py`, carrying the data
that the raised message interpolates. -/
inductive CimcErr where
  /-- "power state has to be in ('on', 'off', 'reboot')" -/
  | invalidPowerState (ps : Option String)
  /-- "Timeout waiting for state change to %s" with the expected value. -/
  | timeout (expect : String)
  /-- "device name %s not in %s" -/
  | invalidDevice (dev : Option String)
  /-- "device order %d must be in [1-5]" -/
  | invalidOrder (order : Int)
  /-- "Setting boot device only supports bios legacy mode, get %s." -/
  | unsupportedMode (mode : String)
  /-- "Setting network adaptors is not supported." -/
  | netAdaptorsUnsupported
  /-- "Set vmedias 'map' supports %s, got %s" -/
  | invalidMap (m : Option String)
  /-- "Unmap vmedias requires 'name' , got %s" -/
  | unmapNeedsName (name : Option String)
  /-- "%s are required for set vmedias" -/
  | vmediaArgsRequired
  /-- an authentication failure raised by `handle.login`. -/
  | authFailure
  /-- a non-zero error code from a raw xml query, with its description. -/
  | remoteFailed (descr : String)
deriving DecidableEq, Repr

/-- Parameters submitted by `add_imc_managedobject` when creating a
`CommVMediaMap` (after `_create_vmedia_mapping` folded the credentials
into the mount options and popped them from the dict). -/
structure VMapCreateParams where
  volumeName : Option String
  remoteFile : Option String
  remoteShare : Option String
  map : String
  mountOptions : String
  dn : String
  rn : String
deriving DecidableEq, Repr

/-- One remote interaction of the broker, in program order.  `getMO`,
`getMOClass` and `xmlResolveClass` are reads; `waitFor` marks entry into
`_wait_util` with its expected value (no remote traffic by itself); the
remaining constructors are writes. -/
inductive Eff where
  /-- `get_imc_managedobject` addressed by distinguished name. -/
  | getMO (dn : String)
  /-- `get_imc_managedobject` addressed by class id. -/
  | getMOClass (classId : String)
  /-- a `ConfigResolveClass` xml query (read-only enumeration). -/
  | xmlResolveClass (classId : String)
  /-- entry into `_wait_util` expecting the given value. -/
  | waitFor (expect : String)
  /-- `set_imc_managedobject` on the rack unit with an `AdminPower` value. -/
  | setPowerCmd (adminPower : String)
  /-- `set_imc_managedobject` updating a boot-policy object in place. -/
  | setBootDev (dn : String) (order : Int)
  /-- `add_imc_managedobject` creating a boot-policy object. -/
  | addBootDev (classId : String) (dn : String) (order : Int)
  /-- `set_imc_managedobject` enabling the virtual-media service. -/
  | enableVMediaSvc
  /-- `configConfMo` submission with `Status = REMOVED` (mapping delete). -/
  | deleteVMediaMap (dn : String)
  /-- `add_imc_managedobject` creating a `CommVMediaMap`. -/
  | addVMediaMap (params : VMapCreateParams)
deriving DecidableEq, Repr

/-- Whether an effect mutates remote state. -/
def Eff.isWrite : Eff → Bool
  | .setPowerCmd _ => true
  | .setBootDev _ _ => true
  | .addBootDev _ _ _ => true
  | .enableVMediaSvc => true
  | .deleteVMediaMap _ => true
  | .addVMediaMap _ => true
  | _ => false

/-- Whether an effect deletes or creates a virtual-media mapping. -/
def Eff.isVMapWrite : Eff → Bool
  | .deleteVMediaMap _ => true
  | .addVMediaMap _ => true
  | _ => false

instance exceptDecEq {ε α : Type} [DecidableEq ε] [DecidableEq α] :
    DecidableEq (Except ε α) := fun x y =>
  match x, y with
  | .ok a, .ok b =>
      if h : a = b then .isTrue (h ▸ rfl)
      else .isFalse (fun hh => h (by injection hh))
  | .error a, .error b =>
      if h : a = b then .isTrue (h ▸ rfl)
      else .isFalse (fun hh => h (by injection hh))
  | .ok _, .error _ => .isFalse (fun hh => by injection hh)
  | .error _, .ok _ => .isFalse (fun hh => by injection hh)

/-- Outcome of one broker operation: the remote interactions in order, the
final `changed` flag (the broker starts each invocation with
`changed = False`), and the returned value or escaped exception. -/
structure Run (α : Type) where
  effs : List Eff
  changed : Bool
  res : Except CimcErr α
deriving DecidableEq, Repr

/-! ## PollUntil: `CIMCBroker._wait_util`

`__init__` fixes `self._interval = 3` and computes
`self._wait_retry = timeout / self._interval` (Python 2 floor division on
ints).  `_wait_util` runs `left = self._wait_retry; while left > 0:` —
one read per iteration — and raises
`Exception("Timeout waiting for state change to %s" % expect)` when the
budget is exhausted. -/

/-- The fixed poll interval (`self._interval = 3`). -/
def pollInterval : Int := 3

/-- `self._wait_retry = timeout / self._interval`, Python 2 floor
division. -/
def wait_retry (timeout : Int) : Int := Int.fdiv timeout pollInterval

/-- Loop body of `_wait_util`: `fuel` is the remaining `left` counter,
`done` the number of reads already performed; `reads i` is the value the
`i`-th call of `func` observes.  Returns the outcome and the total number
of reads performed. -/
def wait_util_loop (expect : String) (reads : Nat → String) :
    Nat → Nat → Except CimcErr Unit × Nat
  | 0, done => (Except.error (CimcErr.timeout expect), done)
  | fuel + 1, done =>
      if reads done = expect then (Except.ok (), done + 1)
      else wait_util_loop expect reads fuel (done + 1)

/-- `CIMCBroker._wait_util` for a broker built with the given `timeout`:
polls `reads` until it returns `expect`, at most `wait_retry timeout`
times. -/
def wait_util (timeout : Int) (expect : String) (reads : Nat → String) :
    Except CimcErr Unit × Nat :=
  wait_util_loop expect reads (wait_retry timeout).toNat 0

/-! ## Session: `CIMCBroker._cimc_handle`

```python
handle = imcsdk.ImcHandle()
try:
    handle.login(self.host, self.username, self.password)
    yield handle
finally:
    handle.logout()
```

The trace records the login attempt's outcome, the events of the body (the
code between `yield` entry and exit), and every `logout` call.  When
`login` raises, the `with` body never runs, but the `finally` clause still
executes `handle.logout()` before the exception propagates. -/

/-- Events of one `_cimc_handle` session scope. -/
inductive SessEv where
  /-- `handle.login` returned normally. -/
  | loginOk
  /-- `handle.login` raised. -/
  | loginFail
  /-- an event of the body executed at the `yield`. -/
  | bodyRun
  /-- `handle.logout` was called. -/
  | logout
deriving DecidableEq, Repr

/-- `CIMCBroker._cimc_handle` used as `with self._cimc_handle() as handle:`.
`loginSucceeds` is whether `handle.login` returns normally; `bodyEvs` and
`bodyRes` describe the body that would run at the `yield`.  Returns the
event trace and the overall outcome of the scope. -/
def cimc_handle (loginSucceeds : Bool) (bodyEvs : List SessEv)
    (bodyRes : Except CimcErr Unit) : List SessEv × Except CimcErr Unit :=
  if loginSucceeds then
    (SessEv.loginOk :: bodyEvs ++ [SessEv.logout], bodyRes)
  else
    ([SessEv.loginFail, SessEv.logout], Except.error CimcErr.authFailure)

/-! ## Helper lemmas about the poll loop -/

/-- When no read in the window matches, the loop consumes all its fuel,
reads once per unit of fuel, and raises the timeout error built from the
expected value. -/
theorem wait_util_loop_all_miss (expect : String) (reads : Nat → String) :
    ∀ (fuel done : Nat), (∀ i, done ≤ i → i < done + fuel → reads i ≠ expect) →
      wait_util_loop expect reads fuel done =
        (Except.error (CimcErr.timeout expect), done + fuel) := by
  intro fuel
  induction fuel with
  | zero => intro done _; simp [wait_util_loop]
  | succ n ih =>
      intro done h
      have hmiss : reads done ≠ expect := h done (Nat.le_refl done) (by omega)
      have hrec := ih (done + 1) (fun i h1 h2 => h i (by omega) (by omega))
      simp [wait_util_loop, hmiss, hrec]
      omega

/-- A nonpositive timeout gives a nonpositive retry budget, hence zero
loop fuel. -/
theorem wait_retry_toNat_eq_zero (timeout : Int) (h : timeout ≤ 0) :
    (wait_retry timeout).toNat = 0 := by
  match timeout, h with
  | Int.ofNat 0, _ => rfl
  | Int.negSucc m, _ => rfl

/-! ## Remote state

The broker reads and writes a single rack unit.  The state gathers every
remote attribute the broker consults; attribute values obtained through
`get_attr` or dynamic field access are `Option String` (`none` models a
Python `None`). -/

/-- Python truthiness of an optional string: `None` and `''` are falsy. -/
def pyTruthy : Option String → Bool
  | none => false
  | some s => s ≠ ""

/-- Python string interpolation `"%s" % v` of an optional string. -/
def pyStr : Option String → String
  | none => "None"
  | some s => s

/-- A child of the legacy `lsbootDef` response: its relative name and its
`Order` attribute (`none` when the attribute is missing or does not parse
as an integer, the `(ValueError, AttributeError)` cases). -/
structure LegacyBootDev where
  rn : String
  order : Option Int
deriving DecidableEq, Repr

/-- A `BiosBootDevPrecision` child object (precision mode). -/
structure PrecisionBootDev where
  slot : String
  name : String
  type_ : String
  order : String
  descr : String
deriving DecidableEq, Repr

/-- An `AdaptorEthGenProfile` child of a vnic. -/
structure EthProfileState where
  vlan : String
  vlanMode : String
deriving DecidableEq, Repr

/-- An `AdaptorHostEthIf` object together with its profile child. -/
structure VnicState where
  dn : String
  rn : String
  ifType : String
  iscsiBoot : String
  mac : String
  name : String
  mtu : String
  pxeBoot : String
  profile : EthProfileState
deriving DecidableEq, Repr

/-- An `AdaptorUnit` object together with its vnic children. -/
structure AdaptorState where
  dn : String
  rn : String
  vendor : String
  id : String
  pciSlot : String
  pciAddr : String
  serial : String
  model : String
  presence : String
  vnics : List VnicState
deriving DecidableEq, Repr

/-- A raw `CommVMediaMap` managed object as returned with `raw=True`;
fields are the attributes the broker reads via `get_attr` or field
access. -/
structure RawVMap where
  volumeName : Option String
  remoteFile : Option String
  remoteShare : Option String
  username : Option String
  password : Option String
  status : Option String
  map : Option String
  mappingStatus : Option String
  mountOptions : Option String
  driveType : Option String
  dn : String
deriving DecidableEq, Repr

/-- The remote CIMC state visible to the broker. -/
structure CimcState where
  /-- `OperPower` of `sys/rack-unit-1`. -/
  operPower : String
  /-- `ConfiguredBootMode` of `sys/rack-unit-1/boot-precision`. -/
  configuredBootMode : String
  /-- children of the `lsbootDef` resolve (legacy boot order). -/
  legacyBootDevs : List LegacyBootDev
  /-- `BiosBootDevPrecision` objects (precision boot order). -/
  precisionBootDevs : List PrecisionBootDev
  /-- distinguished names of existing boot-policy objects. -/
  bootPolicyDns : List String
  /-- `AdaptorUnit` objects of the rack unit. -/
  adaptors : List AdaptorState
  /-- `AdminState == 'enabled'` of `sys/svc-ext/vmedia-svc`. -/
  vmediaAdminEnabled : Bool
  /-- `CommVMediaMap` children of the virtual-media service. -/
  vmediaMaps : List RawVMap
deriving DecidableEq, Repr

/-! ## PowerController: `get_power` / `set_power` -/

/-- `imcsdk.ComputeRackUnit.CONST_ADMIN_POWER_UP`. -/
def CONST_ADMIN_POWER_UP : String := "up"

/-- `imcsdk.ComputeRackUnit.CONST_ADMIN_POWER_DOWN`. -/
def CONST_ADMIN_POWER_DOWN : String := "down"

/-- `imcsdk.ComputeRackUnit.CONST_ADMIN_POWER_HARD_RESET_IMMEDIATE`. -/
def CONST_ADMIN_POWER_HARD_RESET_IMMEDIATE : String := "hard-reset-immediate"

/-- `CIMCBroker.CIMC_POWER_OPTIONS`. -/
def CIMC_POWER_OPTIONS : List (String × String) :=
  [("on", CONST_ADMIN_POWER_UP),
   ("off", CONST_ADMIN_POWER_DOWN),
   ("reboot", CONST_ADMIN_POWER_HARD_RESET_IMMEDIATE)]

/-- Association-list lookup, modelling Python `dict.get`. -/
def alistGet {α : Type} (l : List (String × α)) (k : String) : Option α :=
  (l.find? (fun p => p.fst = k)).map Prod.snd

/-- The read performed by `_get_power_state`. -/
def readRackUnit : Eff := Eff.getMO "sys/rack-unit-1"

/-- `CIMCBroker.get_power`: one read of the rack unit, no mutation. -/
def get_power (st : CimcState) : Run String :=
  ⟨[readRackUnit], false, Except.ok st.operPower⟩

/-- `CIMCBroker.set_power`.  `power_state` is `config.get('power_state')`;
`st.operPower` is the value of the initial `_get_power_state` read;
`laterReads i` is the value the `i`-th poll read inside `_wait_util`
observes.  The result is `Except.ok none` on the early idempotent return
(`return` with no value) and `Except.ok (some s)` for the mutating path's
`dict(power_state=s)`. -/
def set_power (timeout : Int) (st : CimcState) (laterReads : Nat → String)
    (power_state : Option String) : Run (Option String) :=
  match power_state with
  | none => ⟨[], false, Except.error (CimcErr.invalidPowerState none)⟩
  | some ps =>
    if ps = "on" ∨ ps = "off" ∨ ps = "reboot" then
      let cimc_power_ops := (alistGet CIMC_POWER_OPTIONS ps).getD ""
      if st.operPower = ps then
        ⟨[readRackUnit], false, Except.ok none⟩
      else
        let ops :=
          if ps = "reboot" ∧ st.operPower = "off" then CONST_ADMIN_POWER_UP
          else cimc_power_ops
        let expect := if ps ≠ "reboot" then ps else "on"
        let outcome := wait_util timeout expect laterReads
        let effs := readRackUnit :: Eff.setPowerCmd ops :: Eff.waitFor expect ::
          List.replicate outcome.snd readRackUnit
        match outcome.fst with
        | Except.error e => ⟨effs, false, Except.error e⟩
        | Except.ok _ => ⟨effs, true, Except.ok (some expect)⟩
    else
      ⟨[], false, Except.error (CimcErr.invalidPowerState (some ps))⟩

/-! ## BootOrderManager: `get_boot_device` / `set_boot_device` -/

/-- `CIMCBroker.CIMC_BOOT_DEVICES_MAPPING`. -/
def CIMC_BOOT_DEVICES_MAPPING : List (String × String) :=
  [("vm-read-only", "CDROM"),
   ("vm-read-write", "FDD"),
   ("lan-read-only", "PXE"),
   ("storage-read-write", "HDD"),
   ("efi-read-only", "EFI")]

/-- The static attribute template of `BOOT_DEVICES_CIMC_ATTRS` for one
device kind. -/
structure BootAttrs where
  dn : String
  rn : String
  access : String
  classId : String
deriving DecidableEq, Repr

/-- `CIMCBroker.BOOT_DEVICES_CIMC_ATTRS`. -/
def BOOT_DEVICES_CIMC_ATTRS : List (String × BootAttrs) :=
  [("CDROM", ⟨"sys/rack-unit-1/boot-policy/vm-read-only", "vm-read-only",
              "read-only", "LsbootVirtualMedia"⟩),
   ("FDD", ⟨"sys/rack-unit-1/boot-policy/vm-read-write", "vm-read-write",
            "read-write", "LsbootVirtualMedia"⟩),
   ("PXE", ⟨"sys/rack-unit-1/boot-policy/lan-read-only", "lan-read-only",
            "read-only", "LsbootLan"⟩),
   ("EFI", ⟨"sys/rack-unit-1/boot-policy/efi-read-only", "efi-read-only",
            "read-only", "LsbootEfi"⟩),
   ("HDD", ⟨"sys/rack-unit-1/boot-policy/storage-read-write",
            "storage-read-write", "read-write", "LsbootStorage"⟩)]

/-- One entry of the list returned by `_get_boot_devices`: a
`dict(order=..., device=...)` in legacy mode, a
`dict(slot=..., device=..., type=..., order=..., description=...)` in
precision mode. -/
inductive BootEntry where
  | legacy (order : Int) (device : String)
  | precision (slot device type_ order descr : String)
deriving DecidableEq, Repr

/-- The legacy filtering of `_get_boot_devices`: keep children whose
relative name is a known legacy device and whose `Order` parses as a
positive integer; everything else is silently skipped. -/
def legacyBootEntries (devs : List LegacyBootDev) : List BootEntry :=
  devs.filterMap (fun d =>
    match alistGet CIMC_BOOT_DEVICES_MAPPING d.rn with
    | none => none
    | some name =>
        match d.order with
        | some k => if k > 0 then some (BootEntry.legacy k name) else none
        | none => none)

/-- The read performed by `_get_bios_mode`. -/
def readBootMode : Eff := Eff.getMO "sys/rack-unit-1/boot-precision"

/-- `CIMCBroker._get_boot_devices`: its reads and the list it returns.
In legacy mode it re-reads the bios mode, then resolves the `lsbootDef`
subtree; in precision mode it enumerates `BiosBootDevPrecision`
children. -/
def get_boot_devices_run (st : CimcState) : List Eff × List BootEntry :=
  if st.configuredBootMode = "Legacy" then
    ([readBootMode, Eff.xmlResolveClass "lsbootDef"],
     legacyBootEntries st.legacyBootDevs)
  else
    ([readBootMode, Eff.getMO "sys/rack-unit-1/bios/bdgep",
      Eff.getMOClass "BiosBootDevPrecision"],
     st.precisionBootDevs.map (fun d =>
       BootEntry.precision d.slot d.name d.type_ d.order d.descr))

/-- `CIMCBroker.get_boot_device`. -/
def get_boot_device (st : CimcState) : Run (List BootEntry) :=
  ⟨(get_boot_devices_run st).fst, false,
   Except.ok (get_boot_devices_run st).snd⟩

/-- The remote endpoint applying a boot-policy write: the legacy child
with the written relative name gets the written order (it is created when
absent), and the object's distinguished name is registered. -/
def applyBootWrite (st : CimcState) (rn dn : String) (order : Int) :
    CimcState :=
  { st with
    legacyBootDevs :=
      if st.legacyBootDevs.any (fun d => d.rn == rn) then
        st.legacyBootDevs.map (fun d =>
          if d.rn == rn then { d with order := some order } else d)
      else
        st.legacyBootDevs ++ [⟨rn, some order⟩],
    bootPolicyDns :=
      if dn ∈ st.bootPolicyDns then st.bootPolicyDns
      else st.bootPolicyDns ++ [dn] }

/-- The early-return scan of `set_boot_device`: an entry of the current
boot-device list already carries the requested device at the requested
order. -/
def isConvergedEntry (dev : String) (order : Int) : BootEntry → Bool
  | BootEntry.legacy o d => d == dev && o == order
  | _ => false

/-- `CIMCBroker.set_boot_device`.  `device` is `config.get('device')` and
`order` the integer value of `config.get('order')`. -/
def set_boot_device (st : CimcState) (device : Option String) (order : Int) :
    Run (List BootEntry) :=
  match device with
  | none => ⟨[], false, Except.error (CimcErr.invalidDevice none)⟩
  | some dev =>
    match alistGet BOOT_DEVICES_CIMC_ATTRS dev with
    | none => ⟨[], false, Except.error (CimcErr.invalidDevice (some dev))⟩
    | some attrs =>
      if order < 0 ∨ order > 5 then
        ⟨[], false, Except.error (CimcErr.invalidOrder order)⟩
      else if st.configuredBootMode ≠ "Legacy" then
        ⟨[readBootMode], false,
         Except.error (CimcErr.unsupportedMode st.configuredBootMode)⟩
      else
        let pre := get_boot_devices_run st
        if pre.snd.any (isConvergedEntry dev order) then
          ⟨readBootMode :: pre.fst, false, Except.ok pre.snd⟩
        else
          let writeEff :=
            if attrs.dn ∈ st.bootPolicyDns then Eff.setBootDev attrs.dn order
            else Eff.addBootDev attrs.classId attrs.dn order
          let post := get_boot_devices_run (applyBootWrite st attrs.rn attrs.dn order)
          ⟨readBootMode :: pre.fst ++ Eff.getMO attrs.dn :: writeEff :: post.fst,
           true, Except.ok post.snd⟩

/-! ## Network adaptors: `get_net_adaptors` / `set_net_adaptors` -/

/-- One vnic `dict` of the `get_net_adaptors` result. -/
structure VnicData where
  dn : String
  rn : String
  if_type : String
  iscsi_boot : String
  mac : String
  name : String
  mtu : String
  pxe_boot : String
  vlan_id : String
  vlan_mode : String
deriving DecidableEq, Repr

/-- One adaptor `dict` of the `get_net_adaptors` result. -/
structure AdaptorData where
  dn : String
  rn : String
  vendor : String
  id : String
  pci_slot : String
  pci_addr : String
  serial : String
  model : String
  presence : String
  vnics : List VnicData
deriving DecidableEq, Repr

/-- The vnic `dict` built inside `get_net_adaptors`. -/
def vnicData (v : VnicState) : VnicData :=
  ⟨v.dn, v.rn, v.ifType, v.iscsiBoot, v.mac, v.name, v.mtu, v.pxeBoot,
   v.profile.vlan, v.profile.vlanMode⟩

/-- The adaptor `dict` built inside `get_net_adaptors`. -/
def adaptorData (a : AdaptorState) : AdaptorData :=
  ⟨a.dn, a.rn, a.vendor, a.id, a.pciSlot, a.pciAddr, a.serial, a.model,
   a.presence, a.vnics.map vnicData⟩

/-- `CIMCBroker.get_net_adaptors`: enumerates the rack unit, its adaptor
units, each adaptor's vnics and each vnic's profile — reads only. -/
def get_net_adaptors (st : CimcState) : Run (List AdaptorData) :=
  ⟨Eff.getMOClass "ComputeRackUnit" :: Eff.getMOClass "AdaptorUnit" ::
     st.adaptors.flatMap (fun a =>
       Eff.getMOClass "AdaptorHostEthIf" ::
         a.vnics.map (fun _ => Eff.getMOClass "AdaptorEthGenProfile")),
   false, Except.ok (st.adaptors.map adaptorData)⟩

/-- `CIMCBroker.set_net_adaptors`: always raises. -/
def set_net_adaptors (_st : CimcState) : Run Unit :=
  ⟨[], false, Except.error CimcErr.netAdaptorsUnsupported⟩

/-! ## VirtualMediaManager: `get_vmedias` / `set_vmedias` -/

/-- `CIMCBroker.CIMC_VMEDIA_MAP_OPTIONS`: map kind to default mount
options ("unmap" is a self-defined kind for unmapping). -/
def CIMC_VMEDIA_MAP_OPTIONS : List (String × String) :=
  [("www", "noauto"), ("nfs", "nolock"), ("cifs", ""), ("unmap", "")]

/-- One mapping `dict` of the non-raw `_get_vmedia_mappings` result. -/
structure VMediaEntry where
  name : Option String
  remote_file : Option String
  remote_share : Option String
  password : Option String
  user : Option String
  status : Option String
  map : Option String
  map_status : Option String
  mount_options : Option String
  drive_type : Option String
deriving DecidableEq, Repr

/-- The mapping `dict` built inside `_get_vmedia_mappings`. -/
def vmediaEntry (rm : RawVMap) : VMediaEntry :=
  ⟨rm.volumeName, rm.remoteFile, rm.remoteShare, rm.password, rm.username,
   rm.status, rm.map, rm.mappingStatus, rm.mountOptions, rm.driveType⟩

/-- The result shape of `get_vmedias` / `set_vmedias`:
`dict(enabled=..., mappings=...)`. -/
structure VMediaResult where
  enabled : Bool
  mappings : List VMediaEntry
deriving DecidableEq, Repr

/-- The read performed by `_is_vmedia_enabled`. -/
def readVMediaSvc : Eff := Eff.getMO "sys/svc-ext/vmedia-svc"

/-- The read performed by `_get_vmedia_mappings`. -/
def readVMediaMaps : Eff := Eff.getMOClass "CommVMediaMap"

/-- `CIMCBroker.get_vmedias`: reads the service, and the mapping list only
when the service is enabled. -/
def get_vmedias (st : CimcState) : Run VMediaResult :=
  if st.vmediaAdminEnabled then
    ⟨[readVMediaSvc, readVMediaMaps], false,
     Except.ok ⟨true, st.vmediaMaps.map vmediaEntry⟩⟩
  else
    ⟨[readVMediaSvc], false, Except.ok ⟨false, []⟩⟩

/-- The `config` dict accepted by `set_vmedias`; a `none` field models an
absent key. -/
structure VMediaConfig where
  name : Option String
  remote_file : Option String
  remote_share : Option String
  map : Option String
  user : Option String
  password : Option String
  mount_options : Option String
deriving DecidableEq, Repr

/-- The `new_mapping` dict built by `set_vmedias` for map kind `m` whose
default mount options are `dflt`.  Fields that feed the six-way comparison
keep the distinction between `None` and a string. -/
structure NewVMediaParams where
  volumeName : Option String
  remoteFile : Option String
  remoteShare : Option String
  map : String
  mountOptions : String
  username : Option String
  password : String
  dn : String
  rn : String
deriving DecidableEq, Repr

/-- Builds `new_mapping` from the call configuration:
`password = config.get('password', '')`,
`mount_options = config.get('mount_options', CIMC_VMEDIA_MAP_OPTIONS[map_type])`,
`Dn = "sys/svc-ext/vmedia-svc/vmmap-%s" % name`. -/
def newMapping (cfg : VMediaConfig) (m dflt : String) : NewVMediaParams :=
  ⟨cfg.name, cfg.remote_file, cfg.remote_share, m,
   (cfg.mount_options).getD dflt, cfg.user, (cfg.password).getD "",
   "sys/svc-ext/vmedia-svc/vmmap-" ++ pyStr cfg.name,
   "vmmap-" ++ pyStr cfg.name⟩

/-- The comparison loop of `_update_vmedia_mapping` over
`('RemoteFile', 'RemoteShare', 'Username', 'Password', 'Map',
'MountOptions')`: true when any field of the existing mapping differs from
the desired one. -/
def needUpdate (old : RawVMap) (nm : NewVMediaParams) : Bool :=
  old.remoteFile != nm.remoteFile ||
  old.remoteShare != nm.remoteShare ||
  old.username != nm.username ||
  old.password != some nm.password ||
  old.map != some nm.map ||
  old.mountOptions != some nm.mountOptions

/-- `_create_vmedia_mapping`'s folding of the credentials into the mount
options: appends `username=...` / `password=...` only when truthy, joins
with commas, and submits the remaining attributes. -/
def foldCreate (nm : NewVMediaParams) : VMapCreateParams :=
  let opts1 :=
    if pyTruthy nm.username then
      [nm.mountOptions, "username=" ++ (nm.username).getD ""]
    else [nm.mountOptions]
  let opts2 :=
    if nm.password ≠ "" then opts1 ++ ["password=" ++ nm.password]
    else opts1
  ⟨nm.volumeName, nm.remoteFile, nm.remoteShare, nm.map,
   String.intercalate "," opts2, nm.dn, nm.rn⟩

/-- The raw mapping the remote endpoint holds after a create submission. -/
def createdRaw (cp : VMapCreateParams) : RawVMap :=
  ⟨cp.volumeName, cp.remoteFile, cp.remoteShare, none, none, none,
   some cp.map, none, some cp.mountOptions, none, cp.dn⟩

/-- The `old_mapping` scan of `set_vmedias`: the first raw mapping whose
`VolumeName` equals the desired one. -/
def findOld (maps : List RawVMap) (nm : NewVMediaParams) : Option RawVMap :=
  maps.find? (fun rm => rm.volumeName == nm.volumeName)

/-- `CIMCBroker.set_vmedias`. -/
def set_vmedias (st : CimcState) (cfg : VMediaConfig) : Run VMediaResult :=
  match cfg.map with
  | none => ⟨[], false, Except.error (CimcErr.invalidMap none)⟩
  | some m =>
    match alistGet CIMC_VMEDIA_MAP_OPTIONS m with
    | none => ⟨[], false, Except.error (CimcErr.invalidMap (some m))⟩
    | some dflt =>
      if m = "unmap" ∧ pyTruthy cfg.name = false then
        ⟨[], false, Except.error (CimcErr.unmapNeedsName cfg.name)⟩
      else if m ≠ "unmap" ∧
          (pyTruthy cfg.name || pyTruthy cfg.remote_file ||
           pyTruthy cfg.remote_share || pyTruthy (some m)) = false then
        ⟨[], false, Except.error CimcErr.vmediaArgsRequired⟩
      else
        let nm := newMapping cfg m dflt
        let enableEffs :=
          if st.vmediaAdminEnabled then [] else [Eff.enableVMediaSvc]
        let step : List Eff × Bool × List RawVMap :=
          if m = "unmap" then
            match findOld st.vmediaMaps nm with
            | none => ([], false, st.vmediaMaps)
            | some o =>
                ([Eff.deleteVMediaMap o.dn], true,
                 st.vmediaMaps.filter (fun rm => rm.dn != o.dn))
          else
            match findOld st.vmediaMaps nm with
            | some o =>
                if needUpdate o nm then
                  ([Eff.deleteVMediaMap o.dn,
                    Eff.addVMediaMap (foldCreate nm)], true,
                   st.vmediaMaps.filter (fun rm => rm.dn != o.dn) ++
                     [createdRaw (foldCreate nm)])
                else ([], false, st.vmediaMaps)
            | none =>
                ([Eff.addVMediaMap (foldCreate nm)], true,
                 st.vmediaMaps ++ [createdRaw (foldCreate nm)])
        ⟨readVMediaSvc :: enableEffs ++ readVMediaMaps :: step.fst ++
           [readVMediaMaps],
         !st.vmediaAdminEnabled || step.snd.fst,
         Except.ok ⟨true, step.snd.snd.map vmediaEntry⟩⟩

/-! ## Sample states used by witnesses -/

/-- A powered-on rack unit in legacy boot mode. -/
def sampleStateOn : CimcState := ⟨"on", "Legacy", [], [], [], [], true, []⟩

/-- A powered-off rack unit in legacy boot mode. -/
def sampleStateOff : CimcState := ⟨"off", "Legacy", [], [], [], [], true, []⟩

/-! ## Claims -/

/-- C2 (counterexample): with a failing login, the session scope still
calls `logout` on the handle — the `finally` clause runs unconditionally —
contradicting the claim that no logout call is attempted. -/
theorem cimc_handle_logout_despite_login_failure :
    SessEv.logout ∈ (cimc_handle false [SessEv.bodyRun] (Except.ok ())).fst := by
  decide

/-- C2 (amended): for every session open attempt in which login raises,
the body of the session scope is never executed and the authentication
error propagates to the caller, but a logout call IS attempted on the
handle before the error propagates. -/
theorem cimc_handle_login_failure (bodyEvs : List SessEv)
    (bodyRes : Except CimcErr Unit) :
    cimc_handle false bodyEvs bodyRes =
      ([SessEv.loginFail, SessEv.logout], Except.error CimcErr.authFailure) ∧
    SessEv.bodyRun ∉ (cimc_handle false bodyEvs bodyRes).fst ∧
    SessEv.logout ∈ (cimc_handle false bodyEvs bodyRes).fst := by
  refine ⟨rfl, ?_, ?_⟩ <;> simp [cimc_handle]

/-- C3 (counterexample): a poll that only ever observes "off" while
expecting "on" fails with the error built from the EXPECTED value; the
error is not the one built from the last observed value, so the raised
error does not carry the last observed value. -/
theorem wait_util_error_not_last_observed :
    (wait_util 6 "on" (fun _ => "off")).fst =
      Except.error (CimcErr.timeout "on") ∧
    (Except.error (CimcErr.timeout "on") : Except CimcErr Unit) ≠
      Except.error (CimcErr.timeout "off") := by
  exact ⟨rfl, by decide⟩

/-- C3 (amended): for every poll where the reads never return the expected
value, the poll performs exactly `max_attempts = timeout / interval` reads
(interval fixed at 3, Python floor division) and then fails with the
timeout error rather than returning success; the error carries the
EXPECTED value, not the last observed one. -/
theorem wait_util_exhausts_attempts (timeout : Int) (expect : String)
    (reads : Nat → String)
    (h : ∀ i, i < (wait_retry timeout).toNat → reads i ≠ expect) :
    wait_util timeout expect reads =
      (Except.error (CimcErr.timeout expect), (wait_retry timeout).toNat) := by
  unfold wait_util
  have hmiss := wait_util_loop_all_miss expect reads (wait_retry timeout).toNat
    0 (fun i _ h2 => h i (by omega))
  simpa using hmiss

/-- C3 witness: with `timeout = 6` the poll makes exactly 2 reads and
raises the timeout error. -/
theorem wait_util_exhausts_attempts_witness :
    wait_util 6 "on" (fun _ => "off") =
      (Except.error (CimcErr.timeout "on"), 2) := by
  have hne : ("off" : String) ≠ "on" := by decide
  exact wait_util_exhausts_attempts 6 "on" (fun _ => "off") (fun _ _ => hne)

/-- C8: a broker constructed with a zero or negative timeout polls zero
times: the read function is never called (zero reads performed) and the
poll fails immediately with the timeout error. -/
theorem wait_util_nonpositive_timeout (timeout : Int) (expect : String)
    (reads : Nat → String) (h : timeout ≤ 0) :
    wait_util timeout expect reads =
      (Except.error (CimcErr.timeout expect), 0) := by
  unfold wait_util
  rw [wait_retry_toNat_eq_zero timeout h]
  rfl

/-- C8 witness: a timeout of -3 yields an immediate timeout failure with
zero reads. -/
theorem wait_util_nonpositive_timeout_witness :
    wait_util (-3) "on" (fun _ => "off") =
      (Except.error (CimcErr.timeout "on"), 0) :=
  wait_util_nonpositive_timeout (-3) "on" (fun _ => "off") (by decide)

/-- C5: a `set_power` call requesting "reboot" whose initial power read
returns "off" behaves exactly like a `set_power` call requesting "on":
same remote command (the power-up command, never hard-reset-immediate),
same expected end state "on", same trace, flag and result. -/
theorem set_power_reboot_from_off (timeout : Int) (st : CimcState)
    (laterReads : Nat → String) (h : st.operPower = "off") :
    set_power timeout st laterReads (some "reboot") =
      set_power timeout st laterReads (some "on") ∧
    (set_power timeout st laterReads (some "reboot")).effs.take 3 =
      [readRackUnit, Eff.setPowerCmd CONST_ADMIN_POWER_UP,
       Eff.waitFor "on"] := by
  constructor <;>
    simp only [set_power, h, alistGet, CIMC_POWER_OPTIONS, List.find?,
      CONST_ADMIN_POWER_UP] <;>
    cases hw : (wait_util timeout "on" laterReads).1 <;>
    simp [hw]

/-- C5 witness: the two calls coincide on a concrete powered-off state. -/
theorem set_power_reboot_from_off_witness :
    set_power 30 sampleStateOff (fun _ => "on") (some "reboot") =
      set_power 30 sampleStateOff (fun _ => "on") (some "on") ∧
    (set_power 30 sampleStateOff (fun _ => "on") (some "reboot")).effs.take 3 =
      [readRackUnit, Eff.setPowerCmd CONST_ADMIN_POWER_UP,
       Eff.waitFor "on"] :=
  set_power_reboot_from_off 30 sampleStateOff (fun _ => "on") rfl

/-- C7: a `set_power` call requesting "on" or "off" whose initial power
read already equals the request returns immediately: the trace is the
single initial read (no remote power command, no poll) and the changed
flag stays false — hence a second identical call after a successful one
reports `changed = false`. -/
theorem set_power_idempotent_skip (timeout : Int) (st : CimcState)
    (laterReads : Nat → String) (ps : String)
    (hps : ps = "on" ∨ ps = "off") (hcur : st.operPower = ps) :
    set_power timeout st laterReads (some ps) =
      ⟨[readRackUnit], false, Except.ok none⟩ := by
  rcases hps with h | h <;> subst h <;> simp [set_power, hcur]

/-- C7 witness: requesting "on" while already powered on performs only the
initial read and reports no change. -/
theorem set_power_idempotent_skip_witness :
    set_power 30 sampleStateOn (fun _ => "on") (some "on") =
      ⟨[readRackUnit], false, Except.ok none⟩ :=
  set_power_idempotent_skip 30 sampleStateOn (fun _ => "on") "on"
    (Or.inl rfl) rfl

/-- C10: when the initial read already equals an "on"/"off" request,
`set_power` returns no result mapping at all (the Python `return` with no
value, `Except.ok none`), while a mutating call whose poll converges
returns the realized state `Except.ok (some ps)`. -/
theorem set_power_result_shape :
    (∀ (timeout : Int) (st : CimcState) (laterReads : Nat → String)
       (ps : String), (ps = "on" ∨ ps = "off") → st.operPower = ps →
       (set_power timeout st laterReads (some ps)).res = Except.ok none) ∧
    (∀ (timeout : Int) (st : CimcState) (laterReads : Nat → String)
       (ps : String), (ps = "on" ∨ ps = "off") → st.operPower ≠ ps →
       (wait_util timeout ps laterReads).fst = Except.ok () →
       (set_power timeout st laterReads (some ps)).res =
         Except.ok (some ps)) := by
  constructor
  · intro timeout st laterReads ps hps hcur
    rcases hps with h | h <;> subst h <;> simp [set_power, hcur]
  · intro timeout st laterReads ps hps hcur hwait
    rcases hps with h | h <;> subst h <;>
      simp [set_power, hcur, hwait]

/-- C10 witness: the skip path returns no mapping; the mutating path
returns the realized state. -/
theorem set_power_result_shape_witness :
    (set_power 30 sampleStateOn (fun _ => "on") (some "on")).res =
      Except.ok none ∧
    (set_power 30 sampleStateOff (fun _ => "on") (some "on")).res =
      Except.ok (some "on") :=
  ⟨set_power_result_shape.1 30 sampleStateOn (fun _ => "on") "on"
     (Or.inl rfl) rfl,
   set_power_result_shape.2 30 sampleStateOff (fun _ => "on") "on"
     (Or.inl rfl) (by decide) rfl⟩

/-- A rack unit in precision ("Uefi") boot mode. -/
def sampleStatePrecision : CimcState := ⟨"on", "Uefi", [], [], [], [], true, []⟩

/-- A legacy-mode state with one HDD boot entry and no boot-policy
objects. -/
def sampleStateLegacyBoot : CimcState :=
  ⟨"on", "Legacy", [⟨"storage-read-write", some 1⟩], [], [], [], true, []⟩

/-- C6: a `set_boot_device` call with a known device and an order in
[1,5], against a remote whose boot mode is not legacy, fails with the
unsupported-mode error after only the boot-mode read: its trace contains
no remote write. -/
theorem set_boot_device_rejects_non_legacy (st : CimcState) (dev : String)
    (order : Int) (hdev : (alistGet BOOT_DEVICES_CIMC_ATTRS dev).isSome)
    (h1 : 1 ≤ order) (h5 : order ≤ 5)
    (hmode : st.configuredBootMode ≠ "Legacy") :
    (set_boot_device st (some dev) order).res =
      Except.error (CimcErr.unsupportedMode st.configuredBootMode) ∧
    (set_boot_device st (some dev) order).effs.any Eff.isWrite = false := by
  rcases halk : alistGet BOOT_DEVICES_CIMC_ATTRS dev with _ | attrs
  · rw [halk] at hdev; simp at hdev
  · have hord : ¬(order < 0 ∨ order > 5) := by omega
    constructor <;>
      simp [set_boot_device, halk, hord, hmode, readBootMode, Eff.isWrite]

/-- C6 witness: setting PXE at order 1 while the remote reports "Uefi"
boot mode fails without any remote write. -/
theorem set_boot_device_rejects_non_legacy_witness :
    (set_boot_device sampleStatePrecision (some "PXE") 1).res =
      Except.error (CimcErr.unsupportedMode "Uefi") ∧
    (set_boot_device sampleStatePrecision (some "PXE") 1).effs.any
      Eff.isWrite = false :=
  set_boot_device_rejects_non_legacy sampleStatePrecision "PXE" 1
    (by decide) (by decide) (by decide) (by decide)

/-- C4 (divergence at the failing input): the validation in
`set_boot_device` tests `order_index < 0 or order_index > 5`, so a call
with `order = 0` is NOT rejected: against a legacy-mode remote it reaches
the remote and submits a boot-policy write with order 0, instead of
failing with the invalid-order error claimed by the spec (and by the
code's own error message "device order %d must be in [1-5]"). -/
theorem set_boot_device_accepts_order_zero :
    (set_boot_device sampleStateLegacyBoot (some "PXE") 0).effs.any
      Eff.isWrite = true ∧
    (set_boot_device sampleStateLegacyBoot (some "PXE") 0).res ≠
      Except.error (CimcErr.invalidOrder 0) := by
  constructor <;> decide

/-- The map kinds accepted by `set_vmedias` are exactly the four keys of
`CIMC_VMEDIA_MAP_OPTIONS`. -/
theorem vmedia_map_options_keys (m dflt : String)
    (h : alistGet CIMC_VMEDIA_MAP_OPTIONS m = some dflt) :
    m = "www" ∨ m = "nfs" ∨ m = "cifs" ∨ m = "unmap" := by
  by_cases h1 : "www" = m
  · exact Or.inl h1.symm
  by_cases h2 : "nfs" = m
  · exact Or.inr (Or.inl h2.symm)
  by_cases h3 : "cifs" = m
  · exact Or.inr (Or.inr (Or.inl h3.symm))
  by_cases h4 : "unmap" = m
  · exact Or.inr (Or.inr (Or.inr h4.symm))
  exfalso
  simp [alistGet, CIMC_VMEDIA_MAP_OPTIONS, List.find?, h1, h2, h3, h4] at h

/-- C1 (amended): for every `set_vmedias` call with a valid non-"unmap"
map kind that finds an existing mapping with the desired name, the
mapping-level writes are exactly one delete of the existing mapping
followed by one create of the desired one when any of the six compared
fields differ, and none at all when they are all equal (the call may
still enable the virtual-media service if it was disabled). -/
theorem set_vmedias_update_replaces (st : CimcState) (cfg : VMediaConfig)
    (m dflt : String) (o : RawVMap)
    (hmap : cfg.map = some m)
    (hopts : alistGet CIMC_VMEDIA_MAP_OPTIONS m = some dflt)
    (hnm : m ≠ "unmap")
    (hold : findOld st.vmediaMaps (newMapping cfg m dflt) = some o) :
    (set_vmedias st cfg).effs.filter Eff.isVMapWrite =
      (if needUpdate o (newMapping cfg m dflt) = true then
        [Eff.deleteVMediaMap o.dn,
         Eff.addVMediaMap (foldCreate (newMapping cfg m dflt))]
       else []) := by
  have hkeys := vmedia_map_options_keys m dflt hopts
  have hmt : pyTruthy (some m) = true := by
    rcases hkeys with h | h | h | h <;> subst h <;> decide
  cases hupd : needUpdate o (newMapping cfg m dflt) <;>
  cases henb : st.vmediaAdminEnabled <;>
    simp [set_vmedias, hmap, hopts, hnm, hmt, henb, hold, hupd,
      Eff.isVMapWrite, readVMediaSvc, readVMediaMaps, List.filter_append]

/-- An existing "www" mapping of volume "iso1" whose stored attributes
match the defaults produced for a fresh "www" request. -/
def sampleOldMap : RawVMap :=
  ⟨some "iso1", some "x.iso", some "http://h/", none, some "", none,
   some "www", none, some "noauto", none,
   "sys/svc-ext/vmedia-svc/vmmap-iso1"⟩

/-- A `set_vmedias` config changing only the remote file of "iso1". -/
def sampleUpdateCfg : VMediaConfig :=
  ⟨some "iso1", some "y.iso", some "http://h/", some "www", none, none,
   none⟩

/-- A `set_vmedias` config equal to `sampleOldMap` on all six compared
fields. -/
def sampleNoopCfg : VMediaConfig :=
  ⟨some "iso1", some "x.iso", some "http://h/", some "www", none, none,
   none⟩

/-- An enabled virtual-media service holding `sampleOldMap`. -/
def sampleVMediaState : CimcState :=
  ⟨"on", "Legacy", [], [], [], [], true, [sampleOldMap]⟩

/-- A DISABLED virtual-media service holding `sampleOldMap`. -/
def sampleDisabledState : CimcState :=
  ⟨"on", "Legacy", [], [], [], [], false, [sampleOldMap]⟩

/-- C1 witness: changing the remote file of a mounted volume produces
exactly one delete of the old mapping followed by one create of the new
one. -/
theorem set_vmedias_update_replaces_witness :
    (set_vmedias sampleVMediaState sampleUpdateCfg).effs.filter
      Eff.isVMapWrite =
      [Eff.deleteVMediaMap "sys/svc-ext/vmedia-svc/vmmap-iso1",
       Eff.addVMediaMap ⟨some "iso1", some "y.iso", some "http://h/",
         "www", "noauto", "sys/svc-ext/vmedia-svc/vmmap-iso1",
         "vmmap-iso1"⟩] := by
  have hupd : needUpdate sampleOldMap
      (newMapping sampleUpdateCfg "www" "noauto") = true := by decide
  have h := set_vmedias_update_replaces sampleVMediaState sampleUpdateCfg
    "www" "noauto" sampleOldMap rfl (by decide) (by decide) (by decide)
  rw [h, if_pos hupd]
  rfl

/-- C1 (counterexample): a `set_vmedias` call whose desired mapping is
equal to the existing one on all six compared fields still performs a
remote mutation when the virtual-media service is disabled: it enables
the service.  This contradicts the claim that no remote mutation is
performed at all in the all-equal case. -/
theorem set_vmedias_noop_still_writes :
    needUpdate sampleOldMap (newMapping sampleNoopCfg "www" "noauto") =
      false ∧
    findOld sampleDisabledState.vmediaMaps
      (newMapping sampleNoopCfg "www" "noauto") = some sampleOldMap ∧
    (set_vmedias sampleDisabledState sampleNoopCfg).effs.any Eff.isWrite =
      true := by
  refine ⟨by decide, by decide, by decide⟩

/-- C9: every get operation of the broker performs only remote reads and
leaves the changed flag false; and every set operation that reports
`changed = true` has submitted at least one remote write (a mutation or
the virtual-media service enable). -/
theorem broker_change_discipline :
    (∀ st : CimcState, (get_power st).effs.any Eff.isWrite = false ∧
       (get_power st).changed = false) ∧
    (∀ st : CimcState, (get_boot_device st).effs.any Eff.isWrite = false ∧
       (get_boot_device st).changed = false) ∧
    (∀ st : CimcState, (get_net_adaptors st).effs.any Eff.isWrite = false ∧
       (get_net_adaptors st).changed = false) ∧
    (∀ st : CimcState, (get_vmedias st).effs.any Eff.isWrite = false ∧
       (get_vmedias st).changed = false) ∧
    (∀ (timeout : Int) (st : CimcState) (r : Nat → String)
       (ps : Option String), (set_power timeout st r ps).changed = true →
       (set_power timeout st r ps).effs.any Eff.isWrite = true) ∧
    (∀ (st : CimcState) (dev : Option String) (order : Int),
       (set_boot_device st dev order).changed = true →
       (set_boot_device st dev order).effs.any Eff.isWrite = true) ∧
    (∀ (st : CimcState) (cfg : VMediaConfig),
       (set_vmedias st cfg).changed = true →
       (set_vmedias st cfg).effs.any Eff.isWrite = true) := by
  refine ⟨?_, ?_, ?_, ?_, ?_, ?_, ?_⟩
  · intro st
    exact ⟨by simp [get_power, readRackUnit, Eff.isWrite], rfl⟩
  · intro st
    refine ⟨?_, rfl⟩
    by_cases hmode : st.configuredBootMode = "Legacy" <;>
      simp [get_boot_device, get_boot_devices_run, hmode, readBootMode,
        Eff.isWrite]
  · intro st
    refine ⟨?_, rfl⟩
    rw [List.any_eq_false]
    intro e he
    simp only [get_net_adaptors, List.mem_cons, List.mem_flatMap,
      List.mem_map] at he
    rcases he with rfl | rfl | ⟨a, _, he⟩
    · simp [Eff.isWrite]
    · simp [Eff.isWrite]
    · rcases he with rfl | ⟨v, _, rfl⟩ <;> simp [Eff.isWrite]
  · intro st
    cases henb : st.vmediaAdminEnabled <;>
      simp [get_vmedias, henb, readVMediaSvc, readVMediaMaps, Eff.isWrite]
  · intro timeout st r ps h
    rcases ps with _ | v
    · simp [set_power] at h
    · by_cases hv : v = "on" ∨ v = "off" ∨ v = "reboot"
      · rcases hv with rfl | rfl | rfl
        · by_cases hc : st.operPower = "on"
          · simp [set_power, hc] at h
          · cases hw : (wait_util timeout "on" r).1 with
            | error e => simp [set_power, hc, hw] at h
            | ok u => simp [set_power, hc, hw, Eff.isWrite]
        · by_cases hc : st.operPower = "off"
          · simp [set_power, hc] at h
          · cases hw : (wait_util timeout "off" r).1 with
            | error e => simp [set_power, hc, hw] at h
            | ok u => simp [set_power, hc, hw, Eff.isWrite]
        · by_cases hc : st.operPower = "reboot"
          · simp [set_power, hc] at h
          · cases hw : (wait_util timeout "on" r).1 with
            | error e => simp [set_power, hc, hw] at h
            | ok u => simp [set_power, hc, hw, Eff.isWrite]
      · simp [set_power, hv] at h
  · intro st dev order h
    rcases dev with _ | d
    · simp [set_boot_device] at h
    · rcases halk : alistGet BOOT_DEVICES_CIMC_ATTRS d with _ | attrs
      · simp [set_boot_device, halk] at h
      · by_cases hord : order < 0 ∨ order > 5
        · simp [set_boot_device, halk, hord] at h
        · by_cases hmode : st.configuredBootMode ≠ "Legacy"
          · simp [set_boot_device, halk, hord, hmode] at h
          · by_cases hcur : (get_boot_devices_run st).snd.any
                (isConvergedEntry d order) = true
            · simp [set_boot_device, halk, hord, hmode, hcur] at h
            · by_cases hdn : attrs.dn ∈ st.bootPolicyDns <;>
                simp [set_boot_device, halk, hord, hmode, hcur, hdn,
                  readBootMode, Eff.isWrite]
  · intro st cfg h
    rcases hm : cfg.map with _ | m
    · simp [set_vmedias, hm] at h
    · rcases hopt : alistGet CIMC_VMEDIA_MAP_OPTIONS m with _ | dflt
      · simp [set_vmedias, hm, hopt] at h
      · have hmt : pyTruthy (some m) = true := by
          rcases vmedia_map_options_keys m dflt hopt with h1 | h1 | h1 | h1 <;>
            subst h1 <;> decide
        by_cases hv1 : m = "unmap" ∧ pyTruthy cfg.name = false
        · rcases hv1 with ⟨h1, h2⟩
          subst h1
          simp [set_vmedias, hm, hopt, h2] at h
        · cases henb : st.vmediaAdminEnabled
          · simp [set_vmedias, hm, hopt, hv1, hmt, henb,
              readVMediaSvc, readVMediaMaps, Eff.isWrite]
          · by_cases hum : m = "unmap"
            · subst hum
              have hname : pyTruthy cfg.name = true := by
                rcases Bool.eq_false_or_eq_true (pyTruthy cfg.name) with
                  ht | hf
                · exact ht
                · exact absurd ⟨rfl, hf⟩ hv1
              rcases hold : findOld st.vmediaMaps
                  (newMapping cfg "unmap" dflt) with _ | o
              · simp [set_vmedias, hm, hopt, hname, hmt, henb, hold] at h
              · simp [set_vmedias, hm, hopt, hname, hmt, henb, hold,
                  readVMediaSvc, readVMediaMaps, Eff.isWrite]
            · rcases hold : findOld st.vmediaMaps
                  (newMapping cfg m dflt) with _ | o
              · simp [set_vmedias, hm, hopt, hv1, hmt, hum, henb, hold,
                  readVMediaSvc, readVMediaMaps, Eff.isWrite]
              · cases hupd : needUpdate o (newMapping cfg m dflt)
                · simp [set_vmedias, hm, hopt, hv1, hmt, hum, henb,
                    hold, hupd] at h
                · simp [set_vmedias, hm, hopt, hv1, hmt, hum, henb,
                    hold, hupd, readVMediaSvc, readVMediaMaps,
                    Eff.isWrite]

/-- C9 witness: a converging power-off-to-on call reports a change, and
its trace indeed contains a remote write. -/
theorem broker_change_discipline_witness :
    (set_power 30 sampleStateOff (fun _ => "on") (some "on")).effs.any
      Eff.isWrite = true :=
  broker_change_discipline.2.2.2.2.1 30 sampleStateOff (fun _ => "on")
    (some "on") (by decide)

end CimcConf
